import Mathlib

set_option maxHeartbeats 1000000

/-!
Shallow embedding of the behavioral-analytics core of the mindful-eating
coaching backend (`src/backend/app/services/pattern_service.py`,
`risk_service.py`, `insight_service.py`).

Modelling conventions:
* Python floats are idealised as exact rationals (`ℚ`).
* All database queries in the services filter by a single `user_id`; the
  embedding therefore works on that user's rows directly: a `List Pattern`
  models the user's rows of the `patterns` table, a `List FoodEntry` the
  already-fetched entry window.
* `logged_at` is a non-nullable timestamped column; only its calendar date
  matters to the detectors, so it is modelled as a day index `logged_day : Nat`.
* Nullable columns (`hour`, `total_calories`, `mood`, `context`) are `Option`s.
-/

/-- A row of the `food_entries` table (the fields the analytics core reads). -/
structure FoodEntry where
  hour : Option Nat
  total_calories : Option Int
  mood : Option String
  context : Option String
  logged_day : Nat
deriving DecidableEq

/-- The JSONB `evidence` payload attached to a pattern, one constructor per
shape produced by the code (the four detectors and the cold-start seeding).
`Evidence.source` models reading the `"source"` key, present only on
cold-start evidence. -/
inductive Evidence where
  | timeEv (avg_lunch_calories avg_evening_calories r : ℚ)
  | moodEv (avg_bad_mood_calories avg_ok_mood_calories r : ℚ)
  | contextEv (avg_home_calories avg_out_calories r : ℚ)
  | skipEv (skip_binge_days total_days : Nat) (r : ℚ)
  | coldStart (cluster_id : String)
deriving DecidableEq

/-- Read the `"source"` key of an evidence dict (only cold-start evidence
carries one: `{"source": "cold_start", "cluster_id": ...}`). -/
def Evidence.source : Evidence → Option String
  | .coldStart _ => some "cold_start"
  | _ => none

/-- A row of the `patterns` table. -/
structure Pattern where
  id : Nat
  type : String
  description_ru : String
  confidence : ℚ
  evidence : Option Evidence
  active : Bool
deriving DecidableEq

/-- A candidate pattern dict as produced by the detectors / cold start,
before persistence (`type`, `description_ru`, `confidence`, `evidence`). -/
structure Candidate where
  type : String
  description_ru : String
  confidence : ℚ
  evidence : Option Evidence
deriving DecidableEq

/-- Python's `round(q, ndigits)` on exact rationals (banker's rounding:
ties go to the even integer). -/
def pyRound (ndigits : Nat) (q : ℚ) : ℚ :=
  let s : ℚ := q * (10 : ℚ) ^ ndigits
  let f : Int := s.floor
  let r : ℚ := s - (f : ℚ)
  let k : Int :=
    if r < 1/2 then f
    else if 1/2 < r then f + 1
    else if f % 2 = 0 then f else f + 1
  (k : ℚ) / (10 : ℚ) ^ ndigits

/-- `_hour_bucket` (pattern_service.py lines 88-98): bucket name of an hour.
Hours outside every named range fall through to `"night"`, exactly as the
Python function does. -/
def _hour_bucket (hour : Nat) : String :=
  if 6 ≤ hour ∧ hour ≤ 10 then "morning"
  else if 11 ≤ hour ∧ hour ≤ 14 then "lunch"
  else if 15 ≤ hour ∧ hour ≤ 17 then "afternoon"
  else if 18 ≤ hour ∧ hour ≤ 21 then "evening"
  else "night"

/-- Average of a calorie list as an exact rational (`sum(l)/len(l)`). -/
def listAvg (l : List Int) : ℚ := (l.sum : ℚ) / (l.length : ℚ)

/-- The `bucket_calories[bucket]` list: calories of entries with a non-null
hour and non-null calories whose hour falls in the named bucket. -/
def bucketCalories (entries : List FoodEntry) (bucket : String) : List Int :=
  entries.filterMap fun e =>
    match e.hour, e.total_calories with
    | some h, some c => if _hour_bucket h = bucket then some c else none
    | _, _ => none

/-- Number of distinct calendar days in a list of day indices
(`len({...})` over dates). -/
def distinctDays (days : List Nat) : Nat := days.dedup.length

def timeDescriptionRu : String :=
  "Вы съедаете вечером значительно больше, чем в обед — вечерние калории превышают обеденные более чем в 2 раза"

/-- `_detect_time_patterns` (pattern_service.py lines 106-159). -/
def _detect_time_patterns (entries : List FoodEntry) : List Candidate :=
  let lunch_cals := bucketCalories entries "lunch"
  let evening_cals := bucketCalories entries "evening"
  if lunch_cals.isEmpty ∨ evening_cals.isEmpty then []
  else
    let avg_lunch := listAvg lunch_cals
    let avg_evening := listAvg evening_cals
    if avg_lunch = 0 then []
    else if 2 * avg_lunch < avg_evening then
      let total_days := distinctDays (entries.map (·.logged_day))
      let relevant_days := distinctDays (entries.filterMap fun e =>
        match e.hour, e.total_calories with
        | some h, some _ => if _hour_bucket h = "evening" then some e.logged_day else none
        | _, _ => none)
      let confidence := min 1 ((relevant_days : ℚ) / ((max total_days 1 : Nat) : ℚ))
      [{ type := "time", description_ru := timeDescriptionRu,
         confidence := confidence,
         evidence := some (.timeEv (pyRound 1 avg_lunch) (pyRound 1 avg_evening)
           (pyRound 2 (avg_evening / avg_lunch))) }]
    else []

/-- `mood_calories[m]`: calories of entries with that (truthy) mood and
non-null calories. -/
def calsForMood (entries : List FoodEntry) (m : String) : List Int :=
  entries.filterMap fun e =>
    match e.mood, e.total_calories with
    | some m', some c => if m' = m then some c else none
    | _, _ => none

def moodDescriptionRu : String :=
  "При плохом настроении вы съедаете значительно больше калорий — возможно, еда используется как способ справиться с эмоциями"

/-- `_detect_mood_patterns` (pattern_service.py lines 162-220). -/
def _detect_mood_patterns (entries : List FoodEntry) : List Candidate :=
  let bad_cals := calsForMood entries "bad" ++ calsForMood entries "awful"
  let ok_cals := calsForMood entries "ok" ++ calsForMood entries "great"
  if bad_cals.isEmpty ∨ ok_cals.isEmpty then []
  else
    let avg_bad := listAvg bad_cals
    let avg_ok := listAvg ok_cals
    if avg_ok = 0 then []
    else if (3/2 : ℚ) * avg_ok < avg_bad then
      let total_days := distinctDays (entries.map (·.logged_day))
      let relevant_days := distinctDays (entries.filterMap fun e =>
        if e.mood = some "bad" ∨ e.mood = some "awful" then some e.logged_day else none)
      let confidence := min 1 ((relevant_days : ℚ) / ((max total_days 1 : Nat) : ℚ))
      [{ type := "mood", description_ru := moodDescriptionRu,
         confidence := confidence,
         evidence := some (.moodEv (pyRound 1 avg_bad) (pyRound 1 avg_ok)
           (pyRound 2 (avg_bad / avg_ok))) }]
    else []

/-- `context_calories[c]`: calories of entries with that (truthy) context
and non-null calories. -/
def calsForContext (entries : List FoodEntry) (c : String) : List Int :=
  entries.filterMap fun e =>
    match e.context, e.total_calories with
    | some c', some cal => if c' = c then some cal else none
    | _, _ => none

def contextDescriptionRu : String :=
  "В ресторане или на ходу вы съедаете значительно больше, чем дома — обратите внимание на внешние факторы"

/-- `_detect_context_patterns` (pattern_service.py lines 223-276). -/
def _detect_context_patterns (entries : List FoodEntry) : List Candidate :=
  let home_cals := calsForContext entries "home"
  let out_cals := calsForContext entries "restaurant" ++ calsForContext entries "street"
  if home_cals.isEmpty ∨ out_cals.isEmpty then []
  else
    let avg_home := listAvg home_cals
    let avg_out := listAvg out_cals
    if avg_home = 0 then []
    else if (3/2 : ℚ) * avg_home < avg_out then
      let total_days := distinctDays (entries.map (·.logged_day))
      let relevant_days := distinctDays (entries.filterMap fun e =>
        if e.context = some "restaurant" ∨ e.context = some "street"
        then some e.logged_day else none)
      let confidence := min 1 ((relevant_days : ℚ) / ((max total_days 1 : Nat) : ℚ))
      [{ type := "context", description_ru := contextDescriptionRu,
         confidence := confidence,
         evidence := some (.contextEv (pyRound 1 avg_home) (pyRound 1 avg_out)
           (pyRound 2 (avg_out / avg_home))) }]
    else []

def skipDescriptionRu : String :=
  "Вы часто пропускаете обед, а затем переедаете вечером — большая часть дневных калорий приходится на ужин"

/-- Whether a single day's entries count as a skip+binge day: no entry in the
lunch window (11-14), a non-zero calorie total, and evening-window (18-21)
calories strictly above 60% of the day's total. -/
def isSkipBingeDay (day_entries : List FoodEntry) : Bool :=
  let has_lunch := day_entries.any fun e =>
    match e.hour with
    | some h => decide (11 ≤ h ∧ h ≤ 14)
    | none => false
  if has_lunch then false
  else
    let daily_total : Int := (day_entries.filterMap (·.total_calories)).sum
    if daily_total = 0 then false
    else
      let evening_total : Int := (day_entries.filterMap fun e =>
        match e.hour, e.total_calories with
        | some h, some c => if 18 ≤ h ∧ h ≤ 21 then some c else none
        | _, _ => none).sum
      decide ((3/5 : ℚ) < (evening_total : ℚ) / (daily_total : ℚ))

/-- `_detect_skip_patterns` (pattern_service.py lines 279-346): group entries
by calendar day, count skip+binge days. -/
def _detect_skip_patterns (entries : List FoodEntry) : List Candidate :=
  let days := (entries.map (·.logged_day)).dedup
  let total_days := days.length
  if total_days = 0 then []
  else
    let skip_binge_days :=
      (days.filter fun d => isSkipBingeDay (entries.filter (fun e => e.logged_day = d))).length
    if skip_binge_days = 0 then []
    else
      let confidence := min 1 ((skip_binge_days : ℚ) / ((max total_days 1 : Nat) : ℚ))
      [{ type := "skip", description_ru := skipDescriptionRu,
         confidence := confidence,
         evidence := some (.skipEv skip_binge_days total_days
           (pyRound 2 ((skip_binge_days : ℚ) / (total_days : ℚ)))) }]

-- ---------------------------------------------------------------------------
-- Cold start
-- ---------------------------------------------------------------------------

/-- A seed entry of the `CLUSTER_PATTERNS` table. -/
structure SeedPattern where
  type : String
  description_ru : String
  confidence : ℚ
deriving DecidableEq

/-- The `CLUSTER_PATTERNS` dict (pattern_service.py lines 24-75), as a lookup
function; `none` models the key being absent. -/
def CLUSTER_PATTERNS (cluster_id : String) : Option (List SeedPattern) :=
  if cluster_id = "emotional_eater" then
    some [⟨"mood", "Люди с похожим профилем часто едят больше при стрессе или плохом настроении", 3/10⟩]
  else if cluster_id = "chaotic_eater" then
    some [⟨"skip", "Люди с похожим профилем часто пропускают приёмы пищи и переедают позже", 3/10⟩]
  else if cluster_id = "unstructured_eater" then
    some [⟨"time", "Люди с похожим профилем часто едят в нерегулярное время", 3/10⟩]
  else if cluster_id = "mindless_eater" then
    some [⟨"context", "Люди с похожим профилем часто едят на ходу или перед экраном", 3/10⟩]
  else if cluster_id = "general" then
    some [⟨"time", "Обратите внимание на время приёмов пищи — это может раскрыть интересные закономерности", 1/4⟩]
  else none

/-- `_cold_start_patterns` (pattern_service.py lines 354-388): resolve the
user's cluster (falling back to `"general"` when the profile has no cluster,
the cluster is the empty string, or it is not a key of the table) and seed
candidates from the table with confidence capped at 0.4 and cold-start
evidence. The profile lookup is modelled by passing `cluster_id` directly
(`none` also covers a missing profile row): `if not cluster_id or cluster_id
not in CLUSTER_PATTERNS: cluster_id = "general"`, where `not cluster_id` is
true for a missing cluster and for the empty string. -/
def resolveCluster (cluster_id : Option String) : String :=
  match cluster_id with
  | none => "general"
  | some c => if c = "" ∨ (CLUSTER_PATTERNS c).isNone then "general" else c

/-- `_cold_start_patterns` (pattern_service.py lines 354-388): seed candidates
for the resolved cohort with confidence capped at 0.4 and cold-start
evidence. -/
def _cold_start_patterns (cluster_id : Option String) : List Candidate :=
  let cid := resolveCluster cluster_id
  ((CLUSTER_PATTERNS cid).getD []).map fun p =>
    { type := p.type, description_ru := p.description_ru,
      confidence := min (2/5) p.confidence,
      evidence := some (.coldStart cid) }

-- ---------------------------------------------------------------------------
-- Main detection pipeline
-- ---------------------------------------------------------------------------

/-- Stable insert used by `sortByConfDesc`. -/
def insertByConfDesc (c : Candidate) : List Candidate → List Candidate
  | [] => [c]
  | x :: xs => if x.confidence ≤ c.confidence then c :: x :: xs else x :: insertByConfDesc c xs

/-- Python's `raw_patterns.sort(key=lambda p: p["confidence"], reverse=True)`:
a stable sort by confidence descending (equal confidences keep their original
relative order, as CPython's stable sort with `reverse=True` does), embedded
as a structurally recursive stable insertion sort. -/
def sortByConfDesc : List Candidate → List Candidate
  | [] => []
  | x :: xs => insertByConfDesc x (sortByConfDesc xs)

/-- Steps 1-4 of `detect_patterns` (pattern_service.py lines 411-442): the
candidate list after cold start / statistical detection, the ≥ 0.5 confidence
filter (statistical branch only), ranking by confidence descending and the
top-5 cut. `entries` is the user's last-30-days entry window. -/
def detectCandidates (entries : List FoodEntry) (cluster_id : Option String) : List Candidate :=
  let raw0 :=
    if entries.length < 10 then _cold_start_patterns cluster_id
    else
      _detect_time_patterns entries ++ _detect_mood_patterns entries ++
        _detect_context_patterns entries ++ _detect_skip_patterns entries
  let is_cold_start := entries.length < 10
  let raw1 := if is_cold_start then raw0 else raw0.filter fun p => decide ((1/2 : ℚ) ≤ p.confidence)
  (sortByConfDesc raw1).take 5

/-- Persisting one candidate as a fresh active pattern (step 7 of
`detect_patterns`); `pid` models the database-assigned primary key. -/
def mkNewPattern (pid : Nat) (c : Candidate) : Pattern :=
  { id := pid, type := c.type, description_ru := c.description_ru,
    confidence := c.confidence, evidence := c.evidence, active := true }

/-- Step 6 of `detect_patterns` (pattern_service.py lines 467-471): deactivate
every active pattern whose type occurs among the surviving candidate types. -/
def deactivateTypes (store : List Pattern) (ts : List String) : List Pattern :=
  store.map fun p =>
    if p.active = true ∧ p.type ∈ ts then { p with active := false } else p

/-- Step 7 of `detect_patterns` (pattern_service.py lines 473-485): persist
each surviving candidate as a fresh active row (ids model the
database-assigned keys). -/
def persistNew (new_raw : List Candidate) (nextId : Nat) : List Pattern :=
  new_raw.enum.map fun ic => mkNewPattern (nextId + ic.1) ic.2

/-- `detect_patterns` (pattern_service.py lines 396-495) as a transition on
the user's pattern rows: returns `(newly persisted patterns, rows after the
call)`. `store` is the user's rows of the `patterns` table and `nextId` the
next free primary key. Steps 5-7: dedup against active types, deactivate
active patterns whose type is among the surviving candidates, persist the
survivors as new active rows. -/
def detect_patterns (entries : List FoodEntry) (cluster_id : Option String)
    (store : List Pattern) (nextId : Nat) : List Pattern × List Pattern :=
  let raw_patterns := detectCandidates entries cluster_id
  if raw_patterns.isEmpty then ([], store)
  else
    let existing_types := (store.filter (·.active)).map (·.type)
    let new_raw := raw_patterns.filter fun p => decide (p.type ∉ existing_types)
    if new_raw.isEmpty then ([], store)
    else
      let new_types := new_raw.map (·.type)
      let new_patterns := persistNew new_raw nextId
      (new_patterns, deactivateTypes store new_types ++ new_patterns)

-- ---------------------------------------------------------------------------
-- Feedback (dispute)
-- ---------------------------------------------------------------------------

/-- The mutation applied to the disputed row by `submit_feedback`
(pattern_service.py lines 553-555): confidence drops by 0.2 floored at 0.0,
and the row is deactivated when the new confidence is below 0.3 (otherwise
`active` is left as it was). -/
def dispute_pattern (p : Pattern) : Pattern :=
  let c := max 0 (p.confidence - 1/5)
  { p with confidence := c, active := if c < 3/10 then false else p.active }

/-- `submit_feedback` (pattern_service.py lines 539-571): look up the pattern
by primary key (`none` models the 404 on a missing/foreign pattern), apply
the dispute mutation, and return the updated rows together with
`(new_confidence, active)` of the response body. -/
def submit_feedback (store : List Pattern) (pattern_id : Nat) :
    Option (List Pattern × ℚ × Bool) :=
  match store.find? fun p => p.id = pattern_id with
  | none => none
  | some pat =>
    let pat1 := dispute_pattern pat
    some (store.map fun p => if p.id = pattern_id then dispute_pattern p else p,
      pat1.confidence, pat1.active)

-- ---------------------------------------------------------------------------
-- Risk service (risk_service.py)
-- ---------------------------------------------------------------------------

/-- The `RiskScore` response schema fields computed by `calculate_risk`. -/
structure RiskScore where
  level : String
  time_window : Option String
  recommendation : String
deriving DecidableEq

def riskRecommendationDefault : String :=
  "Сделайте паузу и задайте себе вопрос: «Что я сейчас чувствую?» Осознанность — первый шаг."

/-- The `RISK_RECOMMENDATIONS` dict (risk_service.py lines 17-38). -/
def RISK_RECOMMENDATIONS (key : String) : Option String :=
  if key = "time" then
    some "Попробуйте технику «10 минут»: подождите 10 минут перед перекусом. Часто желание проходит само."
  else if key = "mood" then
    some "Остановитесь и сделайте 3 глубоких вдоха. Спросите себя: «Я голоден или мне грустно?»"
  else if key = "skip" then
    some "Важно поесть сейчас! Пропуск приёма пищи повышает риск переедания вечером. Выберите лёгкий перекус."
  else if key = "context" then
    some "Перед выходом из дома подумайте, что вы хотите съесть. Осознанный выбор — ваш главный инструмент."
  else if key = "default" then some riskRecommendationDefault
  else none

/-- The `TIME_WINDOW_LABELS` dict (risk_service.py lines 40-45). -/
def TIME_WINDOW_LABELS (key : String) : Option String :=
  if key = "evening" then some "вечером (18:00–22:00)"
  else if key = "afternoon" then some "после обеда (15:00–18:00)"
  else if key = "night" then some "поздним вечером (22:00+)"
  else if key = "lunch" then some "в обеденное время (12:00–14:00)"
  else none

/-- Accumulator of the pattern loop in `calculate_risk` (risk_service.py
lines 115-146). -/
structure RiskAcc where
  risk : ℚ
  top_contributor : String
  top_contribution : ℚ
  time_window : Option String
deriving DecidableEq

/-- One iteration of the pattern loop of `calculate_risk` (risk_service.py
lines 120-146): the contribution of one active pattern, the running sum, the
top contributor and the time-window label. -/
def riskStep (current_hour : Nat) (lunch_logged has_bad_mood : Bool)
    (acc : RiskAcc) (p : Pattern) : RiskAcc :=
  let ctw : ℚ × Option String :=
    if p.type = "time" then
      if 15 ≤ current_hour then
        let hour_factor := min 1 (((current_hour : ℚ) - 15) / 6)
        let c := p.confidence * (2/5) * hour_factor
        (c, if 0 < c then some "evening" else acc.time_window)
      else (0, acc.time_window)
    else if p.type = "mood" then
      (if has_bad_mood then p.confidence * (3/10) else 0, acc.time_window)
    else if p.type = "skip" then
      if lunch_logged = false ∧ 15 < current_hour then
        (p.confidence * (1/2), some (acc.time_window.getD "evening"))
      else (0, acc.time_window)
    else if p.type = "context" then
      (p.confidence * (1/5), acc.time_window)
    else (0, acc.time_window)
  { risk := acc.risk + ctw.1
    time_window := ctw.2
    top_contribution := if acc.top_contribution < ctw.1 then ctw.1 else acc.top_contribution
    top_contributor := if acc.top_contribution < ctw.1 then p.type else acc.top_contributor }

/-- The base-risk accumulation over the active patterns (step 3 of
`calculate_risk`), starting from `risk = 0`, `top_contributor = "default"`,
`top_contribution = 0`, no time window. -/
def riskBase (patterns : List Pattern) (current_hour : Nat)
    (lunch_logged has_bad_mood : Bool) : RiskAcc :=
  patterns.foldl (riskStep current_hour lunch_logged has_bad_mood)
    ⟨0, "default", 0, none⟩

/-- Step 4 of `calculate_risk`: dampen by 0.7 when more than 1500 kcal are
already logged today, then amplify by 1.3 on weekends. -/
def riskAdjust (risk : ℚ) (high_cal_logged is_weekend : Bool) : ℚ :=
  let r1 := if high_cal_logged then risk * (7/10) else risk
  if is_weekend then r1 * (13/10) else r1

/-- Steps 5-6 of `calculate_risk`: clamp to [0,1] and classify. -/
def riskLevel (risk : ℚ) : String :=
  if risk < 3/10 then "low" else if risk ≤ 3/5 then "medium" else "high"

/-- `calculate_risk` (risk_service.py lines 48-185) as a pure function of the
user's pattern rows, today's entries, and the current hour/weekday
(`weekday`: 0 = Monday … 6 = Sunday, as Python's `datetime.weekday()`).
Returns `none` exactly when the query for active patterns comes back empty. -/
def calculate_risk (store : List Pattern) (today_entries : List FoodEntry)
    (current_hour weekday : Nat) : Option RiskScore :=
  let is_weekend := 5 ≤ weekday
  let patterns := store.filter (·.active)
  if patterns.isEmpty then none
  else
    let lunch_logged := today_entries.any fun e =>
      decide (11 ≤ e.hour.getD 0 ∧ e.hour.getD 0 ≤ 14)
    let has_bad_mood := today_entries.any fun e =>
      decide (e.mood = some "bad" ∨ e.mood = some "awful")
    let total_cal_today : Int := (today_entries.map fun e => e.total_calories.getD 0).sum
    let high_cal_logged := decide (1500 < total_cal_today)
    let acc := riskBase patterns current_hour lunch_logged has_bad_mood
    let risk := max 0 (min 1 (riskAdjust acc.risk high_cal_logged is_weekend))
    let level := riskLevel risk
    let recommendation := (RISK_RECOMMENDATIONS acc.top_contributor).getD riskRecommendationDefault
    let tw_label := match acc.time_window with
      | some w => TIME_WINDOW_LABELS w
      | none => none
    some { level := level, time_window := tw_label, recommendation := recommendation }

-- ---------------------------------------------------------------------------
-- Insight service (insight_service.py)
-- ---------------------------------------------------------------------------

/-- `FREE_WEEKLY_INSIGHT_LIMIT` (insight_service.py line 20). -/
def FREE_WEEKLY_INSIGHT_LIMIT : Nat := 3

/-- The rotation cursor mapping of `generate_daily_insight`
(insight_service.py line 397): `day_in_cycle = (insight_count % 7) + 1`. -/
def day_in_cycle (insight_count : Nat) : Nat := insight_count % 7 + 1

/-- Step 3 of `generate_daily_insight` (insight_service.py lines 399-407):
the insight type selected by the 7-day rotation. -/
def insight_type_for (insight_count : Nat) : String :=
  let d := day_in_cycle insight_count
  if d ≤ 3 then "pattern"
  else if d ≤ 5 then "progress"
  else if d = 6 then "cbt"
  else "risk"

/-- Step 6 of `generate_daily_insight` (insight_service.py lines 418-422):
the lock decision, from the user's subscription status and the
`insights_received` counter read before it is incremented. The counter column
is non-nullable with default 0, so `(user.insights_received or 0)` is the
counter itself. -/
def insight_is_locked (subscription_status : String) (insights_received : Nat) : Bool :=
  subscription_status = "free" ∧ FREE_WEEKLY_INSIGHT_LIMIT ≤ insights_received

/-- The fields of the `users` table read and written by the insight
generator. -/
structure GenUser where
  subscription_status : String
  insights_received : Nat
deriving DecidableEq

/-- The type-selection, locking and counter-increment skeleton of
`generate_daily_insight` (insight_service.py lines 396-439): given the user
row and the count of the user's existing insight rows, returns the generated
insight's `type`, its `is_locked` flag, and the user row after the
`insights_received` increment (which happens after the lock was decided). -/
def generate_insight_meta (user : GenUser) (insight_count : Nat) :
    String × Bool × GenUser :=
  (insight_type_for insight_count,
   insight_is_locked user.subscription_status user.insights_received,
   { user with insights_received := user.insights_received + 1 })

/-- `_generate_cbt_insight`'s library index (insight_service.py line 319):
`insight_count % len(CBT_INSIGHTS)` with a 3-element library. -/
def cbt_library_index (insight_count : Nat) : Nat := insight_count % 3

/-- A persisted row of the `insights` table as read back by
`get_today_insight`. -/
structure InsightRow where
  title : String
  body : String
  action : Option String
  type : String
  is_locked : Bool
deriving DecidableEq

/-- The presentation payload assembled by `get_today_insight`. -/
structure InsightView where
  title : String
  body : String
  action : Option String
  is_locked : Bool
deriving DecidableEq

/-- The locking/truncation logic of `get_today_insight` (insight_service.py
lines 501-519): the stored lock flag only takes effect for a free-tier user;
a locked view truncates the body to its first 100 characters plus an ellipsis
and withholds the action. -/
def get_today_insight_view (ins : InsightRow) (subscription_status : String) : InsightView :=
  let is_locked := if subscription_status = "free" then ins.is_locked else false
  { title := ins.title
    body := if is_locked then (ins.body.take 100).append "..." else ins.body
    action := if is_locked then none else ins.action
    is_locked := is_locked }

-- ---------------------------------------------------------------------------
-- Invariant vocabulary and helper lemmas
-- ---------------------------------------------------------------------------

/-- Types of the currently-active patterns of the user (with multiplicity). -/
@[reducible] def activeTypes (store : List Pattern) : List String :=
  (store.filter (·.active)).map (·.type)

/-- The "at most one active pattern per type" invariant of the pattern
lifecycle. -/
@[reducible] def UniqueActive (store : List Pattern) : Prop :=
  (activeTypes store).Nodup

theorem activeTypes_cons (p : Pattern) (l : List Pattern) :
    activeTypes (p :: l) =
      if p.active then p.type :: activeTypes l else activeTypes l := by
  by_cases h : p.active <;> simp [activeTypes, List.filter_cons, h]

theorem activeTypes_append (l₁ l₂ : List Pattern) :
    activeTypes (l₁ ++ l₂) = activeTypes l₁ ++ activeTypes l₂ := by
  simp [activeTypes, List.filter_append]

theorem activeTypes_sublist_cons (p : Pattern) (l : List Pattern) :
    List.Sublist (activeTypes l) (activeTypes (p :: l)) := by
  rw [activeTypes_cons]
  by_cases h : p.active <;> simp [h, List.Sublist.refl, List.sublist_cons_self]

-- ---------------------------------------------------------------------------
-- Concrete fixtures reused by several theorems
-- ---------------------------------------------------------------------------

/-- A persisted active `time` pattern, as it would exist after an earlier
detection run. -/
def activeTimePattern : Pattern :=
  { id := 1, type := "time", description_ru := "ранее обнаруженный вечерний паттерн",
    confidence := 7/10, evidence := none, active := true }

/-- The active `time` pattern of the risk scenario (confidence 0.8). -/
def scenarioTimePattern : Pattern :=
  { id := 1, type := "time", description_ru := "вечерний паттерн",
    confidence := 4/5, evidence := none, active := true }

/-- A persisted insight row used to exercise the read path. -/
def sampleInsightRow : InsightRow :=
  { title := "Ваш режим питания", body := "полный текст инсайта",
    action := some "Завтра добавьте к обеду порцию белка", type := "pattern",
    is_locked := true }

-- ---------------------------------------------------------------------------
-- C4
-- ---------------------------------------------------------------------------

/-- C4: `calculate_risk` returns `none` if and only if the user has no active
patterns; with at least one active pattern it always returns a `RiskScore`
(the function is total, so sparsity of today's entries — the statement
quantifies over every `today_entries`, including `[]` — never yields an error
or a `none`). -/
theorem calculate_risk_none_iff_no_active (store : List Pattern)
    (today_entries : List FoodEntry) (current_hour weekday : Nat) :
    calculate_risk store today_entries current_hour weekday = none ↔
      store.filter (·.active) = [] := by
  by_cases h : store.filter (·.active) = [] <;>
    simp [calculate_risk, List.isEmpty_iff, h]

-- ---------------------------------------------------------------------------
-- C5
-- ---------------------------------------------------------------------------

/-- C5: one active `time` pattern of confidence 0.8 evaluated at hour 20 with
no entries today gives raw score 0.8 × 0.4 × (5/6) = 4/15 ≈ 0.267; the
weekend multiplier 1.3 lifts it to 26/75 ≈ 0.347, classified `medium`
(0.3 ≤ score ≤ 0.6), while on a weekday the score stays 4/15 < 0.3 and is
classified `low`. -/
theorem risk_evening_weekend_scenario :
    (riskBase [scenarioTimePattern] 20 false false).risk = (4/5) * (2/5) * (5/6) ∧
    (4/5 : ℚ) * (2/5) * (5/6) = 4/15 ∧
    riskAdjust (4/15) false true = 26/75 ∧
    riskLevel (4/15) = "low" ∧
    riskLevel (26/75) = "medium" ∧
    riskLevel (3/10) = "medium" ∧ riskLevel (3/5) = "medium" ∧ riskLevel (0) = "low" ∧
    (calculate_risk [scenarioTimePattern] [] 20 5).map RiskScore.level = some "medium" ∧
    (calculate_risk [scenarioTimePattern] [] 20 2).map RiskScore.level = some "low" := by
  have hbase : (riskBase [scenarioTimePattern] 20 false false).risk = (4/5) * (2/5) * (5/6) := by
    simp [riskBase, riskStep, scenarioTimePattern, min_def]
    norm_num
  refine ⟨hbase, by norm_num, ?_, ?_, ?_, ?_, ?_, ?_, ?_, ?_⟩
  · simp [riskAdjust]
    norm_num
  · norm_num [riskLevel]
  · norm_num [riskLevel]
  · norm_num [riskLevel]
  · norm_num [riskLevel]
  · norm_num [riskLevel]
  · simp [calculate_risk, scenarioTimePattern, riskAdjust, max_def, min_def]
    norm_num [riskBase, riskStep, riskLevel, min_def]
  · simp [calculate_risk, scenarioTimePattern, riskAdjust, max_def, min_def]
    norm_num [riskBase, riskStep, riskLevel, min_def]

-- ---------------------------------------------------------------------------
-- C6
-- ---------------------------------------------------------------------------

/-- C6: the generated insight type is determined by
`day_in_cycle = (insight_count % 7) + 1` with days 1-3 → `pattern`,
days 4-5 → `progress`, day 6 → `cbt`, day 7 → `risk`; counts 0..6 yield the
sequence pattern,pattern,pattern,progress,progress,cbt,risk and count 7 wraps
back to `pattern`. -/
theorem insight_rotation_correct :
    (∀ n : Nat, insight_type_for n =
      if n % 7 < 3 then "pattern"
      else if n % 7 < 5 then "progress"
      else if n % 7 = 5 then "cbt"
      else "risk") ∧
    (List.range 7).map insight_type_for =
      ["pattern", "pattern", "pattern", "progress", "progress", "cbt", "risk"] ∧
    insight_type_for 7 = "pattern" ∧
    (∀ n : Nat, insight_type_for (n + 7) = insight_type_for n) ∧
    (∀ (u : GenUser) (n : Nat), (generate_insight_meta u n).1 = insight_type_for n) := by
  refine ⟨?_, by decide, by decide, ?_, fun u n => rfl⟩
  · intro n
    have h7 : n % 7 < 7 := Nat.mod_lt n (by norm_num)
    unfold insight_type_for day_in_cycle
    generalize hk : n % 7 = k
    rw [hk] at h7
    interval_cases k <;> decide
  · intro n
    unfold insight_type_for day_in_cycle
    rw [Nat.add_mod_right]

-- ---------------------------------------------------------------------------
-- C7
-- ---------------------------------------------------------------------------

/-- C7: a generated insight is locked iff the subscription tier is `"free"`
and the `insights_received` counter read before the increment is at least 3;
counter 2 is unlocked, counter 3 locked, non-free tiers are never locked, and
for a non-free tier the read path keeps the full body and the action. -/
theorem insight_locking_correct :
    (∀ (u : GenUser) (n : Nat),
      (generate_insight_meta u n).2.1 = true ↔
        (u.subscription_status = "free" ∧ 3 ≤ u.insights_received)) ∧
    insight_is_locked "free" 2 = false ∧
    insight_is_locked "free" 3 = true ∧
    (∀ (s : String) (n : Nat), s ≠ "free" → insight_is_locked s n = false) ∧
    (∀ (ins : InsightRow) (s : String), s ≠ "free" →
      (get_today_insight_view ins s).body = ins.body ∧
      (get_today_insight_view ins s).action = ins.action ∧
      (get_today_insight_view ins s).is_locked = false) := by
  refine ⟨?_, by decide, by decide, ?_, ?_⟩
  · intro u n
    simp [generate_insight_meta, insight_is_locked, FREE_WEEKLY_INSIGHT_LIMIT]
  · intro s n hs
    simp [insight_is_locked, hs]
  · intro ins s hs
    simp [get_today_insight_view, hs]

/-- Witness for C7 at tier `"premium"`, counter 10, on a stored locked row. -/
theorem insight_locking_witness :
    insight_is_locked "premium" 10 = false ∧
    (get_today_insight_view sampleInsightRow "premium").body = sampleInsightRow.body ∧
    (get_today_insight_view sampleInsightRow "premium").action = sampleInsightRow.action :=
  ⟨insight_locking_correct.2.2.2.1 "premium" 10 (by decide),
   (insight_locking_correct.2.2.2.2 sampleInsightRow "premium" (by decide)).1,
   (insight_locking_correct.2.2.2.2 sampleInsightRow "premium" (by decide)).2.1⟩

-- ---------------------------------------------------------------------------
-- C9
-- ---------------------------------------------------------------------------

/-- C9: a dispute sets confidence to `max 0 (confidence - 0.2)` and the
pattern stays active exactly when it was active and the new confidence is at
least 0.3; disputes never raise confidence, strictly decrease it while it is
positive (by exactly 0.2 until the floor at 0 is hit), and never re-activate
an inactive pattern; `submit_feedback` applies exactly this mutation to the
row found by id. -/
theorem dispute_pattern_correct (p : Pattern) :
    (dispute_pattern p).confidence = max 0 (p.confidence - 1/5) ∧
    ((dispute_pattern p).active = true ↔
      (p.active = true ∧ 3/10 ≤ (dispute_pattern p).confidence)) ∧
    (0 ≤ p.confidence → (dispute_pattern p).confidence ≤ p.confidence) ∧
    (0 < p.confidence → (dispute_pattern p).confidence < p.confidence) ∧
    (1/5 ≤ p.confidence → (dispute_pattern p).confidence = p.confidence - 1/5) ∧
    (p.confidence ≤ 1/5 → (dispute_pattern p).confidence = 0) ∧
    (p.active = false → (dispute_pattern p).active = false) ∧
    (∀ (store : List Pattern) (pid : Nat) (r : List Pattern × ℚ × Bool),
      submit_feedback store pid = some r →
      ∃ pat, (store.find? fun q => q.id = pid) = some pat ∧
        r.2.1 = (dispute_pattern pat).confidence ∧
        r.2.2 = (dispute_pattern pat).active) := by
  have hc : (dispute_pattern p).confidence = max 0 (p.confidence - 1/5) := rfl
  have ha : (dispute_pattern p).active =
      if max 0 (p.confidence - 1/5) < 3/10 then false else p.active := rfl
  refine ⟨hc, ?_, ?_, ?_, ?_, ?_, ?_, ?_⟩
  · rw [ha, hc]
    rcases lt_or_le (max 0 (p.confidence - 1/5)) (3/10) with h | h
    · rw [if_pos h]
      constructor
      · intro hfalse
        exact absurd hfalse (by simp)
      · rintro ⟨-, hle⟩
        exact absurd hle (not_le.mpr h)
    · rw [if_neg (not_lt.mpr h)]
      constructor
      · intro hpa
        exact ⟨hpa, h⟩
      · rintro ⟨hpa, -⟩
        exact hpa
  · intro h0
    rw [hc]
    rcases le_or_lt (1/5 : ℚ) p.confidence with h | h
    · rw [max_eq_right (by linarith)]
      linarith
    · rw [max_eq_left (by linarith)]
      exact h0
  · intro h0
    rw [hc]
    rcases le_or_lt (1/5 : ℚ) p.confidence with h | h
    · rw [max_eq_right (by linarith)]
      linarith
    · rw [max_eq_left (by linarith)]
      exact h0
  · intro h
    rw [hc, max_eq_right (by linarith)]
  · intro h
    rw [hc, max_eq_left (by linarith)]
  · intro h
    rw [ha, h]
    split <;> rfl
  · intro store pid r hr
    unfold submit_feedback at hr
    cases hfind : store.find? fun q => q.id = pid with
    | none => simp [hfind] at hr
    | some pat =>
      simp only [hfind] at hr
      obtain rfl := Option.some_inj.mp hr
      exact ⟨pat, rfl, rfl, rfl⟩

/-- Witness for C9: disputing the stored confidence-0.7 active `time` pattern
drops its confidence to exactly 0.5, and `submit_feedback` on the singleton
store applies that mutation to the row with id 1. -/
theorem dispute_pattern_witness :
    ((0:ℚ) < activeTimePattern.confidence ∧
      (dispute_pattern activeTimePattern).confidence < activeTimePattern.confidence) ∧
    (dispute_pattern activeTimePattern).confidence = 1/2 ∧
    (∃ pat, ([activeTimePattern].find? fun q => q.id = 1) = some pat ∧
      (dispute_pattern activeTimePattern).confidence = (dispute_pattern pat).confidence ∧
      (dispute_pattern activeTimePattern).active = (dispute_pattern pat).active) := by
  refine ⟨⟨by norm_num [activeTimePattern],
    (dispute_pattern_correct activeTimePattern).2.2.2.1 (by norm_num [activeTimePattern])⟩, ?_, ?_⟩
  · have h := (dispute_pattern_correct activeTimePattern).2.2.2.2.1 (by norm_num [activeTimePattern])
    rw [h]
    norm_num [activeTimePattern]
  · exact (dispute_pattern_correct activeTimePattern).2.2.2.2.2.2.2 [activeTimePattern] 1
      ([dispute_pattern activeTimePattern],
        (dispute_pattern activeTimePattern).confidence,
        (dispute_pattern activeTimePattern).active) rfl

-- ---------------------------------------------------------------------------
-- Pipeline helper lemmas
-- ---------------------------------------------------------------------------

theorem map_eq_self_of_fix {α : Type} (f : α → α) (l : List α)
    (h : ∀ a ∈ l, f a = a) : l.map f = l := by
  induction l with
  | nil => rfl
  | cons a t ih =>
    simp only [List.map_cons, h a (List.mem_cons_self a t)]
    rw [ih fun b hb => h b (List.mem_cons_of_mem a hb)]

theorem mkNewPattern_types (l : List Candidate) (n k : Nat) :
    ((List.enumFrom k l).map fun ic => mkNewPattern (n + ic.1) ic.2).map Pattern.type
      = l.map Candidate.type := by
  induction l generalizing k with
  | nil => rfl
  | cons c t ih =>
    simp only [List.enumFrom, List.map_cons]
    rw [ih (k + 1)]
    rfl

theorem mem_new_raw_type_not_existing (raw : List Candidate) (ts : List String)
    (c : Candidate) (hc : c ∈ raw.filter fun p => decide (p.type ∉ ts)) :
    c.type ∉ ts := by
  have := (List.mem_filter.mp hc).2
  exact of_decide_eq_true this

theorem deactivateTypes_eq_self (store : List Pattern) (ts : List String)
    (h : ∀ p ∈ store, p.active = true → p.type ∉ ts) :
    deactivateTypes store ts = store := by
  apply map_eq_self_of_fix
  intro p hp
  rw [if_neg]
  rintro ⟨hpa, hmem⟩
  exact h p hp hpa hmem

theorem persistNew_types (l : List Candidate) (n : Nat) :
    (persistNew l n).map Pattern.type = l.map Candidate.type := by
  unfold persistNew
  have h := mkNewPattern_types l n 0
  simpa [List.enum] using h

theorem mem_persistNew_type (l : List Candidate) (n : Nat) (q : Pattern)
    (hq : q ∈ persistNew l n) : ∃ c ∈ l, q.type = c.type := by
  have hm : q.type ∈ (persistNew l n).map Pattern.type := List.mem_map_of_mem _ hq
  rw [persistNew_types] at hm
  obtain ⟨c, hc, he⟩ := List.mem_map.mp hm
  exact ⟨c, hc, he.symm⟩

theorem persistNew_active (l : List Candidate) (n : Nat) (q : Pattern)
    (hq : q ∈ persistNew l n) : q.active = true := by
  obtain ⟨ic, hic, rfl⟩ := List.mem_map.mp hq
  rfl

theorem active_type_not_in_new_types (raw : List Candidate) (store : List Pattern)
    (p : Pattern) (hp : p ∈ store) (hpa : p.active = true) :
    p.type ∉ (raw.filter fun c =>
      decide (c.type ∉ (store.filter fun q => q.active).map fun q => q.type)).map
        fun c => c.type := by
  intro hmem
  obtain ⟨c, hc, hct⟩ := List.mem_map.mp hmem
  have hnot := mem_new_raw_type_not_existing raw _ c hc
  apply hnot
  rw [hct]
  exact List.mem_map_of_mem _ (List.mem_filter.mpr ⟨hp, hpa⟩)

-- ---------------------------------------------------------------------------
-- C1
-- ---------------------------------------------------------------------------

/-- C1 counterexample: with no entries (cold start seeds a `time` candidate
from the `"general"` cohort) and an already-active `time` pattern, the
emitted `time` candidate matches the active pattern's type — yet the run
persists nothing and leaves the prior pattern active and untouched, instead
of deactivating it and persisting the candidate. -/
theorem detect_matching_candidate_dropped :
    (detectCandidates [] none).map Candidate.type = ["time"] ∧
    activeTimePattern.active = true ∧
    activeTimePattern.type = "time" ∧
    detect_patterns [] none [activeTimePattern] 2 = ([], [activeTimePattern]) := by
  refine ⟨?_, rfl, rfl, ?_⟩
  · simp [detectCandidates, _cold_start_patterns, CLUSTER_PATTERNS,
      sortByConfDesc, insertByConfDesc]
  · simp [detect_patterns, detectCandidates, _cold_start_patterns, CLUSTER_PATTERNS,
      sortByConfDesc, insertByConfDesc, activeTimePattern]

/-- C1 (amended): a candidate whose type equals the type of a currently-active
pattern is dropped by the dedup step: the prior active pattern is neither
deactivated nor replaced. In fact `detect_patterns` never modifies any
existing row (the deactivation step is vacuous, because every surviving
candidate's type is disjoint from the active types), and every newly
persisted pattern has a type that matched no previously-active pattern. -/
theorem detect_patterns_no_supersession (entries : List FoodEntry)
    (cluster_id : Option String) (store : List Pattern) (nextId : Nat) :
    (∃ rest, (detect_patterns entries cluster_id store nextId).2 = store ++ rest) ∧
    (∀ q ∈ (detect_patterns entries cluster_id store nextId).1,
      ∀ p ∈ store, p.active = true → p.type ≠ q.type) := by
  simp only [detect_patterns]
  cases h0 : (detectCandidates entries cluster_id).isEmpty with
  | true => refine ⟨⟨[], ?_⟩, ?_⟩ <;> simp
  | false =>
    cases h1 : ((detectCandidates entries cluster_id).filter fun p =>
        decide (p.type ∉ (store.filter fun q => q.active).map fun q => q.type)).isEmpty with
    | true =>
      refine ⟨⟨[], ?_⟩, ?_⟩ <;> simp [h1]
    | false =>
      simp only [h1, Bool.false_eq_true, if_false]
      have hdeact := deactivateTypes_eq_self store
        (((detectCandidates entries cluster_id).filter fun c =>
          decide (c.type ∉ (store.filter fun q => q.active).map fun q => q.type)).map
            fun c => c.type)
        (fun p hp hpa => active_type_not_in_new_types (detectCandidates entries cluster_id)
          store p hp hpa)
      constructor
      · refine ⟨persistNew ((detectCandidates entries cluster_id).filter fun c =>
          decide (c.type ∉ (store.filter fun q => q.active).map fun q => q.type)) nextId, ?_⟩
        rw [hdeact]
      · intro q hq p hp hpa heq
        obtain ⟨c, hc, hqt⟩ := mem_persistNew_type _ _ q hq
        have hnot := mem_new_raw_type_not_existing _ _ c hc
        apply hnot
        rw [← hqt, ← heq]
        exact List.mem_map_of_mem _ (List.mem_filter.mpr ⟨hp, hpa⟩)

/-- Witness for C1's amended theorem at the cold-start input with one stored
active `time` pattern. -/
theorem detect_patterns_no_supersession_witness :
    (∃ rest, (detect_patterns [] none [activeTimePattern] 2).2 =
      [activeTimePattern] ++ rest) ∧
    (∀ q ∈ (detect_patterns [] none [activeTimePattern] 2).1,
      ∀ p ∈ [activeTimePattern], p.active = true → p.type ≠ q.type) :=
  detect_patterns_no_supersession [] none [activeTimePattern] 2

-- ---------------------------------------------------------------------------
-- C2
-- ---------------------------------------------------------------------------

/-- C2: if every emitted candidate's type matches some currently-active
pattern of the user, `detect_patterns` returns the empty list and the rows
are returned unchanged — nothing is deactivated and no confidence changes. -/
theorem detect_all_duplicates_noop (entries : List FoodEntry)
    (cluster_id : Option String) (store : List Pattern) (nextId : Nat)
    (h : ∀ c ∈ detectCandidates entries cluster_id,
      ∃ p ∈ store, p.active = true ∧ p.type = c.type) :
    detect_patterns entries cluster_id store nextId = ([], store) := by
  have hnr : (detectCandidates entries cluster_id).filter (fun p =>
      decide (p.type ∉ (store.filter fun q => q.active).map fun q => q.type)) = [] := by
    rw [List.filter_eq_nil_iff]
    intro c hc
    obtain ⟨p, hp, hpa, hpt⟩ := h c hc
    simp only [decide_eq_true_eq, Decidable.not_not]
    exact List.mem_map.mpr ⟨p, List.mem_filter.mpr ⟨hp, hpa⟩, hpt⟩
  simp only [detect_patterns]
  cases h0 : (detectCandidates entries cluster_id).isEmpty with
  | true => rfl
  | false =>
    rw [hnr]
    simp

/-- Witness for C2: the cold-start `time` candidate is a duplicate of the
stored active `time` pattern, so the run is a no-op on the singleton store. -/
theorem detect_all_duplicates_noop_witness :
    detect_patterns [] none [activeTimePattern] 7 = ([], [activeTimePattern]) :=
  detect_all_duplicates_noop [] none [activeTimePattern] 7 (by
    intro c hc
    simp [detectCandidates, _cold_start_patterns, CLUSTER_PATTERNS,
      sortByConfDesc, insertByConfDesc] at hc
    refine ⟨activeTimePattern, List.mem_singleton_self _, rfl, ?_⟩
    rw [hc]
    rfl)

-- ---------------------------------------------------------------------------
-- Cold-start helper lemmas
-- ---------------------------------------------------------------------------

theorem CLUSTER_PATTERNS_spec (s : String) (l : List SeedPattern)
    (h : CLUSTER_PATTERNS s = some l) :
    l.length = 1 ∧ ∀ p ∈ l, 0 ≤ p.confidence ∧ p.confidence ≤ 1 := by
  unfold CLUSTER_PATTERNS at h
  split_ifs at h <;> cases h <;> refine ⟨rfl, ?_⟩ <;> intro p hp <;>
    simp only [List.mem_singleton] at hp <;> subst hp <;> norm_num

theorem resolveCluster_isSome (cl : Option String) :
    (CLUSTER_PATTERNS (resolveCluster cl)).isSome = true := by
  cases cl with
  | none => rfl
  | some s =>
    simp only [resolveCluster]
    split_ifs with hif
    · rfl
    · cases hcp : CLUSTER_PATTERNS s with
      | none => exact absurd (Or.inr (by rw [hcp]; rfl)) hif
      | some l => rfl

theorem cold_start_length (cl : Option String) :
    (_cold_start_patterns cl).length = 1 := by
  simp only [_cold_start_patterns]
  obtain ⟨l, hl⟩ := Option.isSome_iff_exists.mp (resolveCluster_isSome cl)
  rw [hl]
  simpa using (CLUSTER_PATTERNS_spec _ _ hl).1

theorem mem_cold_start (cl : Option String) (c : Candidate)
    (hc : c ∈ _cold_start_patterns cl) :
    0 ≤ c.confidence ∧ c.confidence ≤ 2/5 ∧
      c.evidence.bind Evidence.source = some "cold_start" := by
  simp only [_cold_start_patterns] at hc
  obtain ⟨l, hl⟩ := Option.isSome_iff_exists.mp (resolveCluster_isSome cl)
  rw [hl] at hc
  obtain ⟨p, hp, rfl⟩ := List.mem_map.mp hc
  have hb := (CLUSTER_PATTERNS_spec _ _ hl).2 p (by simpa using hp)
  exact ⟨le_min (by norm_num) hb.1, min_le_left _ _, rfl⟩

-- ---------------------------------------------------------------------------
-- C8
-- ---------------------------------------------------------------------------

/-- C8: with fewer than 10 entries in the window, statistical detection is
skipped and the pipeline's candidates are exactly the cold-start seeds of the
resolved cohort (default `"general"` for a missing or unknown cluster), each
with confidence ≤ 0.4 and cold-start evidence, exempt from the ≥ 0.5 filter
(the `emotional_eater` seed has confidence 0.3 < 0.5 yet survives); cluster
`"emotional_eater"` yields exactly one `mood` candidate. -/
theorem cold_start_detection_correct (entries : List FoodEntry)
    (cluster_id : Option String) (h : entries.length < 10) :
    detectCandidates entries cluster_id = _cold_start_patterns cluster_id ∧
    (∀ c ∈ _cold_start_patterns cluster_id,
      c.confidence ≤ 2/5 ∧ c.evidence.bind Evidence.source = some "cold_start") ∧
    (_cold_start_patterns (some "emotional_eater")).map Candidate.type = ["mood"] ∧
    (_cold_start_patterns (some "emotional_eater")).length = 1 ∧
    (∀ c ∈ _cold_start_patterns (some "emotional_eater"), c.confidence < 1/2) ∧
    (_cold_start_patterns none).map Candidate.type = ["time"] ∧
    (_cold_start_patterns (some "unknown_cluster")).map Candidate.type = ["time"] := by
  refine ⟨?_, ?_, ?_, cold_start_length _, ?_, ?_, ?_⟩
  · simp only [detectCandidates, if_pos h]
    obtain ⟨c, hc⟩ := List.length_eq_one.mp (cold_start_length cluster_id)
    rw [hc]
    simp [sortByConfDesc, insertByConfDesc]
  · intro c hc
    exact ⟨(mem_cold_start _ c hc).2.1, (mem_cold_start _ c hc).2.2⟩
  · simp [_cold_start_patterns, resolveCluster, CLUSTER_PATTERNS]
  · intro c hc
    simp [_cold_start_patterns, resolveCluster, CLUSTER_PATTERNS] at hc
    rw [hc]
    norm_num
  · simp [_cold_start_patterns, resolveCluster, CLUSTER_PATTERNS]
  · simp [_cold_start_patterns, resolveCluster, CLUSTER_PATTERNS]

/-- Witness for C8 at the concrete cold-start input of the scenario: a user
with 0 (< 10) entries and cluster `"emotional_eater"`. -/
theorem cold_start_detection_witness :
    detectCandidates [] (some "emotional_eater") =
      _cold_start_patterns (some "emotional_eater") ∧
    (_cold_start_patterns (some "emotional_eater")).map Candidate.type = ["mood"] :=
  ⟨(cold_start_detection_correct [] (some "emotional_eater") (by norm_num)).1,
   (cold_start_detection_correct [] (some "emotional_eater") (by norm_num)).2.2.1⟩

-- ---------------------------------------------------------------------------
-- C10
-- ---------------------------------------------------------------------------

/-- C10: every confidence produced by the core lies in [0, 1]: each of the
four statistical detectors, cold-start seeding, and (on a confidence already
in [0, 1]) the dispute mutation. -/
theorem confidence_in_unit_interval :
    (∀ entries, ∀ c ∈ _detect_time_patterns entries,
      0 ≤ c.confidence ∧ c.confidence ≤ 1) ∧
    (∀ entries, ∀ c ∈ _detect_mood_patterns entries,
      0 ≤ c.confidence ∧ c.confidence ≤ 1) ∧
    (∀ entries, ∀ c ∈ _detect_context_patterns entries,
      0 ≤ c.confidence ∧ c.confidence ≤ 1) ∧
    (∀ entries, ∀ c ∈ _detect_skip_patterns entries,
      0 ≤ c.confidence ∧ c.confidence ≤ 1) ∧
    (∀ cl, ∀ c ∈ _cold_start_patterns cl,
      0 ≤ c.confidence ∧ c.confidence ≤ 1) ∧
    (∀ p : Pattern, 0 ≤ p.confidence → p.confidence ≤ 1 →
      0 ≤ (dispute_pattern p).confidence ∧ (dispute_pattern p).confidence ≤ 1) := by
  have hb : ∀ (a b : Nat), 0 ≤ min 1 ((a : ℚ) / ((max b 1 : Nat) : ℚ)) ∧
      min 1 ((a : ℚ) / ((max b 1 : Nat) : ℚ)) ≤ 1 := fun a b =>
    ⟨le_min (by norm_num) (div_nonneg (Nat.cast_nonneg _) (Nat.cast_nonneg _)),
      min_le_left _ _⟩
  refine ⟨?_, ?_, ?_, ?_, ?_, ?_⟩
  · intro entries c hc
    simp only [_detect_time_patterns] at hc
    split_ifs at hc <;>
      first
        | exact absurd hc (List.not_mem_nil c)
        | (rw [List.mem_singleton] at hc; subst hc; exact hb _ _)
  · intro entries c hc
    simp only [_detect_mood_patterns] at hc
    split_ifs at hc <;>
      first
        | exact absurd hc (List.not_mem_nil c)
        | (rw [List.mem_singleton] at hc; subst hc; exact hb _ _)
  · intro entries c hc
    simp only [_detect_context_patterns] at hc
    split_ifs at hc <;>
      first
        | exact absurd hc (List.not_mem_nil c)
        | (rw [List.mem_singleton] at hc; subst hc; exact hb _ _)
  · intro entries c hc
    simp only [_detect_skip_patterns] at hc
    split_ifs at hc <;>
      first
        | exact absurd hc (List.not_mem_nil c)
        | (rw [List.mem_singleton] at hc; subst hc; exact hb _ _)
  · intro cl c hc
    have h := mem_cold_start cl c hc
    exact ⟨h.1, le_trans h.2.1 (by norm_num)⟩
  · intro p h0 h1
    refine ⟨le_max_left _ _, ?_⟩
    have hc : (dispute_pattern p).confidence = max 0 (p.confidence - 1/5) := rfl
    rw [hc]
    exact max_le (by norm_num) (by linarith)

/-- An entry logged at 12:00 with 200 kcal, mood ok, at home. -/
def entryLunch : FoodEntry :=
  { hour := some 12, total_calories := some 200, mood := some "ok",
    context := some "home", logged_day := 0 }

/-- An entry logged at 19:00 with 500 kcal, mood bad, at a restaurant. -/
def entryEvening : FoodEntry :=
  { hour := some 19, total_calories := some 500, mood := some "bad",
    context := some "restaurant", logged_day := 0 }

/-- The candidate the time detector emits on `[entryLunch, entryEvening]`. -/
def timeCandW : Candidate :=
  { type := "time", description_ru := timeDescriptionRu, confidence := 1,
    evidence := some (.timeEv 200 500 (5/2)) }

/-- The candidate the mood detector emits on `[entryLunch, entryEvening]`. -/
def moodCandW : Candidate :=
  { type := "mood", description_ru := moodDescriptionRu, confidence := 1,
    evidence := some (.moodEv 500 200 (5/2)) }

/-- The candidate the context detector emits on `[entryLunch, entryEvening]`. -/
def contextCandW : Candidate :=
  { type := "context", description_ru := contextDescriptionRu, confidence := 1,
    evidence := some (.contextEv 200 500 (5/2)) }

/-- The candidate the skip detector emits on `[entryEvening]`. -/
def skipCandW : Candidate :=
  { type := "skip", description_ru := skipDescriptionRu, confidence := 1,
    evidence := some (.skipEv 1 1 1) }

/-- The cold-start seed of the `emotional_eater` cohort. -/
def coldCandW : Candidate :=
  { type := "mood",
    description_ru := "Люди с похожим профилем часто едят больше при стрессе или плохом настроении",
    confidence := 3/10, evidence := some (.coldStart "emotional_eater") }

/-- Witness for C10: each detector fires on the concrete entries above and
its emitted confidence is in [0, 1]; likewise for the `emotional_eater`
cold-start seed and for a dispute of the confidence-0.8 pattern. -/
theorem confidence_in_unit_interval_witness :
    (0 ≤ timeCandW.confidence ∧ timeCandW.confidence ≤ 1) ∧
    (0 ≤ moodCandW.confidence ∧ moodCandW.confidence ≤ 1) ∧
    (0 ≤ contextCandW.confidence ∧ contextCandW.confidence ≤ 1) ∧
    (0 ≤ skipCandW.confidence ∧ skipCandW.confidence ≤ 1) ∧
    (0 ≤ coldCandW.confidence ∧ coldCandW.confidence ≤ 1) ∧
    (0 ≤ (dispute_pattern scenarioTimePattern).confidence ∧
      (dispute_pattern scenarioTimePattern).confidence ≤ 1) := by
  have ht : _detect_time_patterns [entryLunch, entryEvening] = [timeCandW] := by
    simp [_detect_time_patterns, bucketCalories, listAvg, distinctDays,
      entryLunch, entryEvening, _hour_bucket, pyRound, timeCandW]
    norm_num [Rat.floor]
  have hm : _detect_mood_patterns [entryLunch, entryEvening] = [moodCandW] := by
    simp [_detect_mood_patterns, calsForMood, listAvg, distinctDays,
      entryLunch, entryEvening, pyRound, moodCandW]
    norm_num [Rat.floor]
  have hx : _detect_context_patterns [entryLunch, entryEvening] = [contextCandW] := by
    simp [_detect_context_patterns, calsForContext, listAvg, distinctDays,
      entryLunch, entryEvening, pyRound, contextCandW]
    norm_num [Rat.floor]
  have hk : _detect_skip_patterns [entryEvening] = [skipCandW] := by
    have hsb : isSkipBingeDay
        [({ hour := some 19, total_calories := some 500, mood := some "bad",
            context := some "restaurant", logged_day := 0 } : FoodEntry)] = true := by
      simp [isSkipBingeDay]
      norm_num
    simp [_detect_skip_patterns, distinctDays, entryEvening, hsb, pyRound, skipCandW]
    norm_num [Rat.floor]
  have hcold : coldCandW ∈ _cold_start_patterns (some "emotional_eater") := by
    simp [_cold_start_patterns, resolveCluster, CLUSTER_PATTERNS, coldCandW]
    norm_num [min_def]
  exact ⟨confidence_in_unit_interval.1 [entryLunch, entryEvening] timeCandW
      (by rw [ht]; exact List.mem_singleton_self _),
    confidence_in_unit_interval.2.1 [entryLunch, entryEvening] moodCandW
      (by rw [hm]; exact List.mem_singleton_self _),
    confidence_in_unit_interval.2.2.1 [entryLunch, entryEvening] contextCandW
      (by rw [hx]; exact List.mem_singleton_self _),
    confidence_in_unit_interval.2.2.2.1 [entryEvening] skipCandW
      (by rw [hk]; exact List.mem_singleton_self _),
    confidence_in_unit_interval.2.2.2.2.1 (some "emotional_eater") coldCandW hcold,
    confidence_in_unit_interval.2.2.2.2.2 scenarioTimePattern
      (by norm_num [scenarioTimePattern]) (by norm_num [scenarioTimePattern])⟩

-- ---------------------------------------------------------------------------
-- Sorting and candidate-type lemmas
-- ---------------------------------------------------------------------------

theorem insertByConfDesc_perm (c : Candidate) (l : List Candidate) :
    (insertByConfDesc c l).Perm (c :: l) := by
  induction l with
  | nil => exact List.Perm.refl _
  | cons x xs ih =>
    simp only [insertByConfDesc]
    split_ifs with h
    · exact List.Perm.refl _
    · exact (ih.cons x).trans (List.Perm.swap c x xs)

theorem sortByConfDesc_perm (l : List Candidate) :
    (sortByConfDesc l).Perm l := by
  induction l with
  | nil => exact List.Perm.refl _
  | cons x xs ih =>
    exact (insertByConfDesc_perm x (sortByConfDesc xs)).trans (ih.cons x)

theorem sort_take_types_nodup (l : List Candidate) (n : Nat)
    (h : (l.map (·.type)).Nodup) :
    (((sortByConfDesc l).take n).map (·.type)).Nodup := by
  have h1 : ((sortByConfDesc l).map (·.type)).Nodup :=
    (((sortByConfDesc_perm l).map _).nodup_iff).mpr h
  exact (((List.take_sublist n _)).map _).nodup h1

theorem time_types_sublist (entries : List FoodEntry) :
    List.Sublist ((_detect_time_patterns entries).map (·.type)) ["time"] := by
  simp only [_detect_time_patterns]
  split_ifs <;> simp

theorem mood_types_sublist (entries : List FoodEntry) :
    List.Sublist ((_detect_mood_patterns entries).map (·.type)) ["mood"] := by
  simp only [_detect_mood_patterns]
  split_ifs <;> simp

theorem context_types_sublist (entries : List FoodEntry) :
    List.Sublist ((_detect_context_patterns entries).map (·.type)) ["context"] := by
  simp only [_detect_context_patterns]
  split_ifs <;> simp

theorem skip_types_sublist (entries : List FoodEntry) :
    List.Sublist ((_detect_skip_patterns entries).map (·.type)) ["skip"] := by
  simp only [_detect_skip_patterns]
  split_ifs <;> simp

theorem stat_types_nodup (entries : List FoodEntry) :
    ((_detect_time_patterns entries ++ _detect_mood_patterns entries ++
      _detect_context_patterns entries ++ _detect_skip_patterns entries).map
        (·.type)).Nodup := by
  have hsub : List.Sublist
      ((_detect_time_patterns entries ++ _detect_mood_patterns entries ++
        _detect_context_patterns entries ++ _detect_skip_patterns entries).map (·.type))
      ["time", "mood", "context", "skip"] := by
    rw [List.map_append, List.map_append, List.map_append]
    exact (((time_types_sublist entries).append (mood_types_sublist entries)).append
      (context_types_sublist entries)).append (skip_types_sublist entries)
  exact hsub.nodup (by decide)

theorem cold_types_nodup (cl : Option String) :
    ((_cold_start_patterns cl).map (·.type)).Nodup := by
  obtain ⟨c, hc⟩ := List.length_eq_one.mp (cold_start_length cl)
  rw [hc]
  simp

theorem detectCandidates_types_nodup (entries : List FoodEntry) (cl : Option String) :
    ((detectCandidates entries cl).map (·.type)).Nodup := by
  simp only [detectCandidates]
  split_ifs with h
  · exact sort_take_types_nodup _ 5 (cold_types_nodup cl)
  · exact sort_take_types_nodup _ 5
      (((List.filter_sublist _).map _).nodup (stat_types_nodup entries))

-- ---------------------------------------------------------------------------
-- Active-type lemmas for the lifecycle invariant
-- ---------------------------------------------------------------------------

theorem activeTypes_map_sublist (f : Pattern → Pattern)
    (htype : ∀ p, (f p).type = p.type)
    (hact : ∀ p, (f p).active = true → p.active = true) (store : List Pattern) :
    List.Sublist (activeTypes (store.map f)) (activeTypes store) := by
  induction store with
  | nil => simp [activeTypes]
  | cons p l ih =>
    rw [List.map_cons, activeTypes_cons, activeTypes_cons]
    by_cases hfa : (f p).active = true
    · rw [if_pos hfa, if_pos (hact p hfa), htype p]
      exact ih.cons₂ _
    · rw [if_neg hfa]
      by_cases hpa : p.active = true
      · rw [if_pos hpa]
        exact ih.cons _
      · rw [if_neg hpa]
        exact ih

theorem mem_activeTypes (store : List Pattern) (t : String) :
    t ∈ activeTypes store ↔ ∃ p ∈ store, p.active = true ∧ p.type = t := by
  simp only [activeTypes, List.mem_map, List.mem_filter]
  constructor
  · rintro ⟨p, ⟨hp, hpa⟩, rfl⟩
    exact ⟨p, hp, hpa, rfl⟩
  · rintro ⟨p, hp, hpa, rfl⟩
    exact ⟨p, ⟨hp, hpa⟩, rfl⟩

theorem active_in_deactivateTypes_not_mem (store : List Pattern) (ts : List String)
    (q : Pattern) (hq : q ∈ deactivateTypes store ts) (hqa : q.active = true) :
    q.type ∉ ts := by
  simp only [deactivateTypes, List.mem_map] at hq
  obtain ⟨p, hp, rfl⟩ := hq
  by_cases hcond : p.active = true ∧ p.type ∈ ts
  · rw [if_pos hcond] at hqa
    exact absurd hqa (by simp)
  · rw [if_neg hcond] at hqa ⊢
    exact fun hmem => hcond ⟨hqa, hmem⟩

theorem activeTypes_persistNew (l : List Candidate) (n : Nat) :
    activeTypes (persistNew l n) = l.map Candidate.type := by
  have hact : ∀ q ∈ persistNew l n, (fun p => p.active) q = true :=
    fun q hq => persistNew_active l n q hq
  unfold activeTypes
  rw [List.filter_eq_self.mpr hact]
  exact persistNew_types l n

theorem unique_active_main (store : List Pattern) (nr : List Candidate) (nextId : Nat)
    (h : UniqueActive store) (hnodup : (nr.map (·.type)).Nodup) :
    UniqueActive (deactivateTypes store (nr.map (·.type)) ++ persistNew nr nextId) := by
  unfold UniqueActive
  rw [activeTypes_append, List.nodup_append]
  refine ⟨?_, ?_, ?_⟩
  · have hsub := activeTypes_map_sublist
      (fun p => if p.active = true ∧ p.type ∈ nr.map (·.type) then { p with active := false } else p)
      (fun p => by dsimp only; split_ifs <;> rfl)
      (fun p hp => by
        dsimp only at hp
        by_cases hc : p.active = true ∧ p.type ∈ nr.map (·.type)
        · rw [if_pos hc] at hp
          exact absurd hp (by simp)
        · rw [if_neg hc] at hp
          exact hp)
      store
    exact hsub.nodup h
  · rw [activeTypes_persistNew]
    exact hnodup
  · intro t hl hr
    rw [activeTypes_persistNew] at hr
    obtain ⟨q, hq, hqa, rfl⟩ := (mem_activeTypes _ t).mp hl
    exact active_in_deactivateTypes_not_mem store _ q hq hqa hr

-- ---------------------------------------------------------------------------
-- C3
-- ---------------------------------------------------------------------------

/-- C3: starting from a store with at most one active pattern per type, both
`detect_patterns` (statistical and cold-start branches alike) and
`submit_feedback` preserve that invariant. -/
theorem unique_active_preserved (store : List Pattern) (h : UniqueActive store) :
    (∀ (entries : List FoodEntry) (cluster_id : Option String) (nextId : Nat),
      UniqueActive (detect_patterns entries cluster_id store nextId).2) ∧
    (∀ (pid : Nat) (r : List Pattern × ℚ × Bool),
      submit_feedback store pid = some r → UniqueActive r.1) := by
  constructor
  · intro entries cluster_id nextId
    simp only [detect_patterns]
    cases h0 : (detectCandidates entries cluster_id).isEmpty with
    | true => simpa using h
    | false =>
      cases h1 : ((detectCandidates entries cluster_id).filter fun p =>
          decide (p.type ∉ (store.filter fun q => q.active).map fun q => q.type)).isEmpty with
      | true => simpa using h
      | false =>
        simp only [Bool.false_eq_true, if_false]
        have hnd : (((detectCandidates entries cluster_id).filter fun p =>
            decide (p.type ∉ (store.filter fun q => q.active).map fun q => q.type)).map
              (·.type)).Nodup :=
          ((List.filter_sublist _).map _).nodup
            (detectCandidates_types_nodup entries cluster_id)
        exact unique_active_main store _ nextId h hnd
  · intro pid r hr
    unfold submit_feedback at hr
    cases hfind : store.find? fun q => q.id = pid with
    | none => simp [hfind] at hr
    | some pat =>
      simp only [hfind] at hr
      obtain rfl := Option.some_inj.mp hr
      have hsub := activeTypes_map_sublist
        (fun p => if p.id = pid then dispute_pattern p else p)
        (fun p => by dsimp only; split_ifs <;> rfl)
        (fun p hp => by
          dsimp only at hp
          by_cases hc : p.id = pid
          · rw [if_pos hc] at hp
            simp only [dispute_pattern] at hp
            split_ifs at hp
            exact hp
          · rw [if_neg hc] at hp
            exact hp)
        store
      exact hsub.nodup h

/-- Witness for C3 on the singleton store holding one active `time` pattern:
a cold-start detection run and a dispute both keep at most one active
pattern per type. -/
theorem unique_active_preserved_witness :
    UniqueActive (detect_patterns [] none [activeTimePattern] 3).2 ∧
    UniqueActive [dispute_pattern activeTimePattern] :=
  ⟨(unique_active_preserved [activeTimePattern] (by decide)).1 [] none 3,
   (unique_active_preserved [activeTimePattern] (by decide)).2 1
     ([dispute_pattern activeTimePattern],
       (dispute_pattern activeTimePattern).confidence,
       (dispute_pattern activeTimePattern).active) rfl⟩
